import Mathlib

/-!
Shallow embedding of `src/targets/browser/browserAttacher.ts` (class
`BrowserAttacher`) and verification of its specified properties.

The TypeScript source is single-threaded cooperative async code.  We embed it
as pure Lean functions:

* the connection-acquire retry loop (`acquireConnectionForBrowser`, source
  lines 138-172) becomes the fuel-indexed function `acquireFrom`, with the
  asynchronous environment (result of each `launcher.attach` attempt, the
  cancellation-token state observed in each `catch`, and the value of the
  `this._lastLaunchParams === params` staleness check at each loop head)
  supplied by an `AcquireEnv` oracle;
* the mutable fields of the class become the record `AttacherState`, and each
  event handler becomes a state-transformer returning the fired events;
* interleaving-sensitive behaviour (supersession of `AttachParams` while an
  attempt is in flight) is modelled by a small labelled transition system
  (`GState`/`Step`) whose steps are the suspension points of the source.
-/

/-- The fields of `AnyChromiumAttachConfiguration` that the attacher reads.
`refId` models JavaScript reference identity: the source compares
`this._lastLaunchParams === params` by reference, so two distinct
configuration objects carry distinct `refId`s. -/
structure AttachParams where
  address : String
  port : Nat
  restart : Bool
  urlFilter : Option String
  url : String
  timeout : Nat
  refId : Nat
deriving DecidableEq, Repr

/-- `const browserURL = `http://${params.address}:${params.port}`` (source line 143). -/
def browserURL (p : AttachParams) : String :=
  "http://" ++ p.address ++ ":" ++ toString p.port

/-- The localized message `attach.cannotConnect`:
`Cannot connect to the target at {0}: {1}` (source lines 154-159, 166-171). -/
def cannotConnectMsg (url cause : String) : String :=
  "Cannot connect to the target at " ++ url ++ ": " ++ cause

/-- Connections are identified by an id; the embedding never inspects them. -/
abbrev Conn := Nat

/-- Environment oracle for one run of the `acquireConnectionForBrowser` loop.
Iteration `i` of the `while` loop observes:
`paramsCurrent i` — the value of `this._lastLaunchParams === params` at the
loop head (the field is shared mutable state, so it can change between
iterations); `attemptResult i` — `some c` when `launcher.attach` resolves
with connection `c`, `none` when it rejects; `cancelled i` — the value of
`cancellationToken.isCancellationRequested` inside the `catch`; `failMsg i` —
`e.message` of the rejection. -/
structure AcquireEnv where
  paramsCurrent : Nat → Bool
  attemptResult : Nat → Option Conn
  cancelled : Nat → Bool
  failMsg : Nat → String

/-- Result of the acquire loop: the connection or the formatted error, together
with the number of `launcher.attach` calls made and the number of
`await delay(1000)` fixed 1000 ms pauses taken. -/
inductive AcquireOutcome where
  | success (c : Conn) (attempts delays1000ms : Nat)
  | failure (msg : String) (attempts delays1000ms : Nat)
deriving DecidableEq, Repr

/-- `acquireConnectionForBrowser` (source lines 138-172), starting at loop
iteration `i` having already made `a` attempts and taken `d` delays.  The
loop `while (this._lastLaunchParams === params)` tries `launcher.attach`;
on success it returns the connection; on rejection it returns the formatted
error if the token is cancelled, else delays 1000 ms and loops; when the
loop guard fails it returns the formatted error with cause `Cancelled`.
`fuel` bounds the number of iterations we unfold; `none` means the loop was
still running after `fuel` iterations. -/
def acquireFrom (env : AcquireEnv) (p : AttachParams) :
    Nat → Nat → Nat → Nat → Option AcquireOutcome
  | 0, _, _, _ => none
  | fuel + 1, i, a, d =>
    if env.paramsCurrent i then
      match env.attemptResult i with
      | some c => some (.success c (a + 1) d)
      | none =>
        if env.cancelled i then
          some (.failure (cannotConnectMsg (browserURL p) (env.failMsg i)) (a + 1) d)
        else
          acquireFrom env p fuel (i + 1) (a + 1) (d + 1)
    else
      some (.failure (cannotConnectMsg (browserURL p) "Cancelled") a d)

/-- Auxiliary: an acquire run whose attempts `i, i+1, …, i+N-1` all reject with
the token never cancelled and the params always current, and whose attempt
`i+N` resolves, returns that connection having made exactly `N+1` attempts
and `N` delays, regardless of any extra fuel. -/
theorem acquireFrom_success_shift (env : AcquireEnv) (p : AttachParams) (c : Conn) :
    ∀ N i a d k,
      (∀ j, j < N → env.attemptResult (i + j) = none) →
      env.attemptResult (i + N) = some c →
      (∀ j, env.paramsCurrent j = true) →
      (∀ j, env.cancelled j = false) →
      acquireFrom env p (N + 1 + k) i a d = some (.success c (a + N + 1) (d + N)) := by
  intro N
  induction N with
  | zero =>
    intro i a d k _ hsucc hcur _
    have hf : 0 + 1 + k = k + 1 := by omega
    rw [hf]
    have hs : env.attemptResult i = some c := by simpa using hsucc
    simp [acquireFrom, hcur i, hs]
  | succ n ih =>
    intro i a d k hfail hsucc hcur hnc
    have h0 : env.attemptResult i = none := by
      have := hfail 0 (Nat.succ_pos n)
      simpa using this
    have hrec := ih (i + 1) (a + 1) (d + 1) k
      (fun j hj => by
        have := hfail (j + 1) (Nat.succ_lt_succ hj)
        simpa [Nat.add_assoc, Nat.add_comm 1 j] using this)
      (by simpa [Nat.add_assoc, Nat.add_comm 1 n] using hsucc)
      hcur hnc
    have hstep : acquireFrom env p (n + 1 + 1 + k) i a d
        = acquireFrom env p (n + 1 + k) (i + 1) (a + 1) (d + 1) := by
      have hf : n + 1 + 1 + k = (n + 1 + k) + 1 := by omega
      rw [hf]
      simp [acquireFrom, hcur i, h0, hnc i]
    rw [hstep, hrec]
    congr 2 <;> omega

/-- C2: if the first `N` transport-open attempts fail, attempt `N+1` succeeds,
the cancellation token is never signaled and the `AttachParams` are never
superseded, then `acquireConnectionForBrowser` returns the successful
connection after exactly `N` fixed 1000 ms delays, having made exactly
`N + 1` open attempts (so no attempt follows the success) — for every fuel
bound large enough to reach the success. -/
theorem c2_retry_termination (env : AcquireEnv) (p : AttachParams) (N : Nat) (c : Conn) (k : Nat)
    (hfail : ∀ i, i < N → env.attemptResult i = none)
    (hsucc : env.attemptResult N = some c)
    (hcur : ∀ i, env.paramsCurrent i = true)
    (hnc : ∀ i, env.cancelled i = false) :
    acquireFrom env p (N + 1 + k) 0 0 0 = some (.success c (N + 1) N) := by
  have := acquireFrom_success_shift env p c N 0 0 0 k
    (fun j hj => by simpa using hfail j hj) (by simpa using hsucc) hcur hnc
  simpa using this

/-- Concrete acquire environment: two rejections, then success with connection 7. -/
def envTwoFailures : AcquireEnv where
  paramsCurrent := fun _ => true
  attemptResult := fun i => if i < 2 then none else some 7
  cancelled := fun _ => false
  failMsg := fun _ => "connect ECONNREFUSED 127.0.0.1:9222"

/-- Concrete attach configuration used by the witnesses. -/
def pW : AttachParams :=
  { address := "127.0.0.1", port := 9222, restart := true, urlFilter := some "*"
    url := "about:blank", timeout := 3000, refId := 1 }

theorem c2_retry_termination_witness :
    acquireFrom envTwoFailures pW 3 0 0 0 = some (.success 7 3 2) := by
  have := c2_retry_termination envTwoFailures pW 2 7 0
    (by decide) rfl (fun _ => rfl) (fun _ => rfl)
  simpa using this

/-- C3: the acquire loop returns an error exactly under cancellation or
supersession.  Conjuncts: (1) a rejected attempt with the token already
signaled returns the formatted error built from the endpoint and the failure
cause, after that one attempt — no further retries; (2) a loop-head exit
because the params were superseded returns the formatted error with cause
`Cancelled`, making no attempt; (3) a rejected attempt with the token
unsignaled and the params still current is not surfaced: the loop takes one
more 1000 ms delay and retries; (4) conversely, every error the loop ever
returns is of one of those two forms. -/
theorem c3_acquire_errors (env : AcquireEnv) (p : AttachParams) :
    (∀ fuel i a d, env.paramsCurrent i = true → env.attemptResult i = none →
        env.cancelled i = true →
        acquireFrom env p (fuel + 1) i a d =
          some (.failure (cannotConnectMsg (browserURL p) (env.failMsg i)) (a + 1) d)) ∧
    (∀ fuel i a d, env.paramsCurrent i = false →
        acquireFrom env p (fuel + 1) i a d =
          some (.failure (cannotConnectMsg (browserURL p) "Cancelled") a d)) ∧
    (∀ fuel i a d, env.paramsCurrent i = true → env.attemptResult i = none →
        env.cancelled i = false →
        acquireFrom env p (fuel + 1) i a d = acquireFrom env p fuel (i + 1) (a + 1) (d + 1)) ∧
    (∀ fuel i a d m a2 d2,
        acquireFrom env p fuel i a d = some (.failure m a2 d2) →
        m = cannotConnectMsg (browserURL p) "Cancelled" ∨
        ∃ j, env.cancelled j = true ∧ env.attemptResult j = none ∧
          m = cannotConnectMsg (browserURL p) (env.failMsg j)) := by
  refine ⟨?_, ?_, ?_, ?_⟩
  · intro fuel i a d hc hr hk
    simp [acquireFrom, hc, hr, hk]
  · intro fuel i a d hc
    simp [acquireFrom, hc]
  · intro fuel i a d hc hr hk
    simp [acquireFrom, hc, hr, hk]
  · intro fuel
    induction fuel with
    | zero => intro i a d m a2 d2 h; simp [acquireFrom] at h
    | succ n ih =>
      intro i a d m a2 d2 h
      by_cases hc : env.paramsCurrent i = true
      · cases hr : env.attemptResult i with
        | some c => simp [acquireFrom, hc, hr] at h
        | none =>
          by_cases hk : env.cancelled i = true
          · simp [acquireFrom, hc, hr, hk] at h
            right
            exact ⟨i, hk, hr, h.1.symm⟩
          · rw [show (n + 1 : Nat) = n + 1 from rfl] at h
            simp only [acquireFrom, hc, hr, if_true, if_neg hk] at h
            exact ih (i + 1) (a + 1) (d + 1) m a2 d2 h
      · simp only [acquireFrom] at h
        rw [if_neg hc] at h
        left
        cases h
        rfl

/-- Acquire environment in which the single attempt rejects with the token
already signaled. -/
def envCancelledAttempt : AcquireEnv where
  paramsCurrent := fun _ => true
  attemptResult := fun _ => none
  cancelled := fun _ => true
  failMsg := fun _ => "socket hang up"

/-- Acquire environment in which the params are superseded before the first
loop-head check. -/
def envSuperseded : AcquireEnv where
  paramsCurrent := fun _ => false
  attemptResult := fun _ => none
  cancelled := fun _ => false
  failMsg := fun _ => "unused"

theorem c3_acquire_errors_witness :
    acquireFrom envCancelledAttempt pW 1 0 0 0 =
      some (.failure (cannotConnectMsg (browserURL pW) "socket hang up") 1 0) ∧
    acquireFrom envSuperseded pW 1 0 0 0 =
      some (.failure (cannotConnectMsg (browserURL pW) "Cancelled") 0 0) ∧
    acquireFrom envTwoFailures pW 2 0 0 0 = acquireFrom envTwoFailures pW 1 1 1 1 :=
  ⟨(c3_acquire_errors envCancelledAttempt pW).1 0 0 0 0 rfl rfl rfl,
   (c3_acquire_errors envSuperseded pW).2.1 0 0 0 0 rfl,
   (c3_acquire_errors envTwoFailures pW).2.2.1 1 0 0 0 rfl rfl rfl⟩

/-- `BrowserTargetManager` as the attacher observes it.  Modelled from the
spec: the manager's own source (`browserTargets.ts`) is not part of the
corpus; the spec only requires that it owns a target set and exposes
`dispose()`, so we keep a `disposed` flag (disposal is modelled as flag
setting, hence idempotent) and an identifier. -/
structure TargetManagerS where
  tmId : Nat
  disposed : Bool
deriving DecidableEq, Repr

/-- The pending retry scheduled by `_scheduleAttach` (source lines 62-67):
`setTimeout(..., 1000)` whose callback re-runs `_attemptToAttach` with
`{ ...context, cancellationToken: NeverCancelled }`.  `cancelled` records a
`clearTimeout`. -/
structure RetryTimer where
  params : AttachParams
  delayMs : Nat
  tokenNeverCancelled : Bool
  cancelled : Bool
deriving DecidableEq, Repr

/-- The mutable fields of class `BrowserAttacher` (source lines 26-30).
`connectionClosed` records whether `close()` has been called on the object
held in `connection`; `disposables` holds the ids of registered event
subscriptions (`this._disposables`). -/
structure AttacherState where
  attemptTimer : Option RetryTimer
  connection : Option Conn
  connectionClosed : Bool
  targetManager : Option TargetManagerS
  disposables : List Nat
  lastLaunchParams : Option AttachParams
deriving DecidableEq, Repr

/-- The attacher with no connection, manager, timer or subscriptions. -/
def initialAttacher : AttacherState :=
  { attemptTimer := none, connection := none, connectionClosed := false
    targetManager := none, disposables := [], lastLaunchParams := none }

/-- Events fired through the attacher's emitters.  `tmDisposed` marks the call
`this._targetManager.dispose()`; `targetListChanged` a fire of
`_onTargetListChangedEmitter`; `terminated k c` a fire of
`_onTerminatedEmitter` with `{killed: k, code: c}`. -/
inductive Ev where
  | tmDisposed
  | targetListChanged
  | terminated (killed : Bool) (code : Int)
deriving DecidableEq, Repr

/-- `_scheduleAttach` (source lines 62-67): stores a 1000 ms timer whose
attempt will run with the `NeverCancelled` token. -/
def scheduleAttach (s : AttacherState) (p : AttachParams) : AttacherState :=
  let t : RetryTimer :=
    { params := p, delayMs := 1000, tokenNeverCancelled := true, cancelled := false }
  { s with attemptTimer := some t }

/-- The `connection.onDisconnected` handler registered in `_attemptToAttach`
(source lines 80-97), with `p` the `params` captured by the closure: clear
`_connection`; if a target manager is present, dispose it, clear the
reference and fire target-list-changed; then either schedule a retry (when
the captured params are still current and `restart` is set) or fire
terminated `{killed: true, code: 0}`. -/
def onDisconnectedHandler (s : AttacherState) (p : AttachParams) : AttacherState × List Ev :=
  let s1 : AttacherState := { s with connection := none }
  let td : AttacherState × List Ev :=
    match s1.targetManager with
    | some _ => ({ s1 with targetManager := none }, [Ev.tmDisposed, Ev.targetListChanged])
    | none => (s1, [])
  if td.1.lastLaunchParams = some p ∧ p.restart = true then
    (scheduleAttach td.1 p, td.2)
  else
    (td.1, td.2 ++ [Ev.terminated true 0])

/-- A debug target as the attacher observes it (`ITarget`): an id and the
`canAttach()` capability. -/
structure Target where
  targetId : Nat
  canAttach : Bool
deriving DecidableEq, Repr

/-- The `targetManager.onTargetRemoved` handler (source lines 115-121), with
`remaining` the value of `targetManager.targetList()` after the removal:
fire target-list-changed, and when the remaining list is empty and the
removed target can attach, fire terminated `{killed: true, code: 0}`
(graceful exit). -/
def onTargetRemovedHandler (remaining : List Target) (removed : Target) : List Ev :=
  Ev.targetListChanged ::
    (if remaining.length = 0 ∧ removed.canAttach = true then [Ev.terminated true 0] else [])

/-- `params.urlFilter || params.url` (source line 129): JavaScript `||` falls
through on `undefined` and on the empty string. -/
def filterValue (p : AttachParams) : String :=
  match p.urlFilter with
  | some f => if f = "" then p.url else f
  | none => p.url

/-- The localized message `chrome.attach.noMatchingTarget`:
`Can't find a valid target that matches {0} within {1}ms`
(source lines 126-131). -/
def noMatchingTargetMsg (p : AttachParams) : String :=
  "Can't find a valid target that matches " ++ filterValue p ++ " within "
    ++ toString p.timeout ++ "ms"

/-- The `Promise.race` between `waitForMainTarget(filter)` and
`delay(params.timeout)` (source lines 123-133).  `appearAt` is the instant
(ms) a target matching the filter appears, `none` if never.  The race
resolves to the target (no error) when the match appears strictly before
the timeout elapses, and to the formatted message when the timeout elapses
first. -/
def raceMainTarget (appearAt : Option Nat) (p : AttachParams) : Option String :=
  match appearAt with
  | some t => if t < p.timeout then none else some (noMatchingTargetMsg p)
  | none => some (noMatchingTargetMsg p)

/-- External outcomes consumed by one `_attemptToAttach` run after the
connection is acquired: the result of `BrowserTargetManager.connect`
(`none` models `undefined`, "no attach performed") and the appearance time
of a target matching the filter. -/
structure ConnectEnv where
  tmConnect : Option TargetManagerS
  mainTargetAppearsAt : Option Nat

/-- Observable outcome of the tail of `_attemptToAttach`. `forwardingWired`
records whether the four target-list forwarding subscriptions were made,
`raceRan` whether the main-target/timeout race was started. -/
structure AttemptResult where
  state : AttacherState
  error : Option String
  forwardingWired : Bool
  raceRan : Bool
deriving Repr

/-- The body of `_attemptToAttach` after `acquireConnectionForBrowser`
returned a connection (source lines 79-136): install the connection, push
the `onDisconnected` subscription onto `_disposables` (modelled by id `0`),
store the result of `BrowserTargetManager.connect` into `_targetManager`;
if it is `undefined`, return no error at once (no forwarding, no race);
otherwise wire the forwarding subscriptions and run the main-target race,
returning its error if the timeout message won. -/
def attachAfterAcquire (s : AttacherState) (conn : Conn) (p : AttachParams)
    (env : ConnectEnv) : AttemptResult :=
  let s1 : AttacherState :=
    { s with connection := some conn, disposables := s.disposables ++ [0] }
  match env.tmConnect with
  | none =>
    { state := { s1 with targetManager := none }, error := none
      forwardingWired := false, raceRan := false }
  | some tm =>
    { state := { s1 with targetManager := some tm }
      error := raceMainTarget env.mainTargetAppearsAt p
      forwardingWired := true, raceRan := true }

/-- The debug types distinguished by `DebugType` (`contributionUtils`); the
attacher only compares against `Chrome` and `Edge`. -/
inductive DebugType where
  | chrome
  | edge
  | node
  | extensionHost
  | terminal
deriving DecidableEq, Repr

/-- The fields of `AnyLaunchConfiguration` read by `launch`, with the attach
payload carried alongside. -/
structure LaunchConfig where
  type : DebugType
  request : String
  attach : AttachParams
deriving DecidableEq, Repr

/-- `ILaunchResult` as built by `launch`: `{ blockSessionTermination: false }`,
`{ error }` or `{ blockSessionTermination: true }`.  Absent fields are
`none`. -/
structure ILaunchResult where
  error : Option String
  blockSessionTermination : Option Bool
deriving DecidableEq, Repr

/-- `error ? { error } : { blockSessionTermination: true }` (source line 59). -/
def launchResultOfError : Option String → ILaunchResult
  | some e => { error := some e, blockSessionTermination := none }
  | none => { error := none, blockSessionTermination := some true }

/-- `launch` (source lines 48-60), with the awaited `_attemptToAttach` call
abstracted as the state-transformer `attempt` (the attempt runs against the
state in which `params` has just been recorded as
`this._lastLaunchParams`). -/
def launch (s : AttacherState) (cfg : LaunchConfig)
    (attempt : AttacherState → AttacherState × Option String) :
    AttacherState × ILaunchResult :=
  if (cfg.type ≠ DebugType.chrome ∧ cfg.type ≠ DebugType.edge) ∨ cfg.request ≠ "attach" then
    (s, { error := none, blockSessionTermination := some false })
  else
    let r := attempt { s with lastLaunchParams := some cfg.attach }
    (r.1, launchResultOfError r.2)

/-- `terminate` (source lines 174-177): clear `_lastLaunchParams`, and call
`close()` on the connection when present (`this._connection?.close()`). -/
def terminate (s : AttacherState) : AttacherState :=
  { s with lastLaunchParams := none
           connectionClosed := s.connectionClosed || s.connection.isSome }

/-- `disconnect` (source lines 179-181): `return this.terminate()`. -/
def disconnect (s : AttacherState) : AttacherState :=
  terminate s

/-- `dispose` (source lines 41-46): dispose every registered subscription and
empty the list; `clearTimeout` on the pending timer when present (the field
itself is not cleared); `dispose()` the target manager when present (the
field is not cleared). -/
def dispose (s : AttacherState) : AttacherState :=
  { s with disposables := []
           attemptTimer := s.attemptTimer.map (fun t => { t with cancelled := true })
           targetManager := s.targetManager.map (fun tm => { tm with disposed := true }) }

/-- What the `setTimeout` callback of `_scheduleAttach` does when the timer
fires: nothing if it was cancelled by `clearTimeout`, otherwise an
`_attemptToAttach(params, { ...context, cancellationToken: NeverCancelled })`
call, reported here as the params together with the token's
never-cancelled flag. -/
def fireRetryTimer (s : AttacherState) : Option (AttachParams × Bool) :=
  match s.attemptTimer with
  | some t => if t.cancelled then none else some (t.params, t.tokenNeverCancelled)
  | none => none

/-- Helper to build the environment of one post-acquire attach attempt. -/
def connectEnv (tmc : Option TargetManagerS) (ap : Option Nat) : ConnectEnv :=
  { tmConnect := tmc, mainTargetAppearsAt := ap }

/-- C4: `launch` returns the not-handled result `{blockSessionTermination:
false}` and leaves the state untouched unless the configuration is a
browser-attach request; otherwise it records the params as
`_lastLaunchParams` and wraps the attempt's outcome as `{error}` or
`{blockSessionTermination: true}`; in every case the result never carries
both an `error` and a `blockSessionTermination` field. -/
theorem c4_launch_dispatch (s : AttacherState) (cfg : LaunchConfig)
    (attempt : AttacherState → AttacherState × Option String) :
    (((cfg.type ≠ DebugType.chrome ∧ cfg.type ≠ DebugType.edge) ∨ cfg.request ≠ "attach") →
        launch s cfg attempt = (s, { error := none, blockSessionTermination := some false })) ∧
    (((cfg.type = DebugType.chrome ∨ cfg.type = DebugType.edge) ∧ cfg.request = "attach") →
        launch s cfg attempt =
          ((attempt { s with lastLaunchParams := some cfg.attach }).1,
            launchResultOfError (attempt { s with lastLaunchParams := some cfg.attach }).2)) ∧
    ¬((launch s cfg attempt).2.error.isSome = true ∧
        (launch s cfg attempt).2.blockSessionTermination.isSome = true) := by
  refine ⟨?_, ?_, ?_⟩
  · intro h
    simp only [launch, if_pos h]
  · intro h
    have hn : ¬((cfg.type ≠ DebugType.chrome ∧ cfg.type ≠ DebugType.edge) ∨
        cfg.request ≠ "attach") := by
      push_neg
      constructor
      · intro hc
        rcases h.1 with h1 | h1
        · exact absurd h1 hc
        · exact h1
      · exact h.2
    simp only [launch, if_neg hn]
  · by_cases h : (cfg.type ≠ DebugType.chrome ∧ cfg.type ≠ DebugType.edge) ∨
        cfg.request ≠ "attach"
    · simp [launch, if_pos h]
    · simp only [launch, if_neg h]
      cases he : (attempt { s with lastLaunchParams := some cfg.attach }).2 with
      | none => simp [launchResultOfError]
      | some e => simp [launchResultOfError]

/-- Browser-attach configuration used by the witnesses. -/
def cfgChromeAttach : LaunchConfig :=
  { type := DebugType.chrome, request := "attach", attach := pW }

/-- Non-browser configuration used by the witnesses. -/
def cfgNodeLaunch : LaunchConfig :=
  { type := DebugType.node, request := "launch", attach := pW }

theorem c4_launch_dispatch_witness :
    launch initialAttacher cfgNodeLaunch (fun s => (s, none)) =
      (initialAttacher, { error := none, blockSessionTermination := some false }) ∧
    launch initialAttacher cfgChromeAttach (fun s => (s, none)) =
      ({ initialAttacher with lastLaunchParams := some pW },
        { error := none, blockSessionTermination := some true }) := by
  constructor
  · exact (c4_launch_dispatch initialAttacher cfgNodeLaunch (fun s => (s, none))).1
      (Or.inr (by decide))
  · have h := (c4_launch_dispatch initialAttacher cfgChromeAttach (fun s => (s, none))).2.1
      ⟨Or.inl rfl, rfl⟩
    simpa [launchResultOfError] using h

/-- C5: the disconnect handler clears the connection; when a target manager is
present it disposes it, clears the reference and fires target-list-changed
(before any terminated event); exactly when the captured params are still
current and `restart` is set it schedules one 1000 ms retry whose token is
never-cancelled (and fires no terminated event); otherwise it fires
terminated `{killed: true, code: 0}` last and exactly once, scheduling
nothing. -/
theorem c5_disconnect_handling (s : AttacherState) (p : AttachParams) :
    ((onDisconnectedHandler s p).1.connection = none) ∧
    (∀ tm, s.targetManager = some tm →
        (onDisconnectedHandler s p).1.targetManager = none ∧
        (onDisconnectedHandler s p).2 =
          Ev.tmDisposed :: Ev.targetListChanged ::
            (if s.lastLaunchParams = some p ∧ p.restart = true then []
             else [Ev.terminated true 0])) ∧
    ((s.lastLaunchParams = some p ∧ p.restart = true) →
        (onDisconnectedHandler s p).1.attemptTimer = some ⟨p, 1000, true, false⟩ ∧
        ∀ k c, Ev.terminated k c ∉ (onDisconnectedHandler s p).2) ∧
    (¬(s.lastLaunchParams = some p ∧ p.restart = true) →
        (onDisconnectedHandler s p).2.getLast? = some (Ev.terminated true 0) ∧
        (onDisconnectedHandler s p).2.count (Ev.terminated true 0) = 1 ∧
        (onDisconnectedHandler s p).1.attemptTimer = s.attemptTimer) := by
  by_cases hc : s.lastLaunchParams = some p ∧ p.restart = true
  · cases htm : s.targetManager with
    | none =>
      refine ⟨?_, ?_, ?_, ?_⟩
      · simp [onDisconnectedHandler, htm, hc, scheduleAttach]
      · intro tm htm2; simp at htm2
      · intro _
        constructor
        · simp [onDisconnectedHandler, htm, hc, scheduleAttach]
        · intro k c
          simp [onDisconnectedHandler, htm, hc]
      · intro h; exact absurd hc h
    | some tm0 =>
      refine ⟨?_, ?_, ?_, ?_⟩
      · simp [onDisconnectedHandler, htm, hc, scheduleAttach]
      · intro tm htm2
        constructor
        · simp [onDisconnectedHandler, htm, hc, scheduleAttach]
        · simp [onDisconnectedHandler, htm, hc]
      · intro _
        constructor
        · simp [onDisconnectedHandler, htm, hc, scheduleAttach]
        · intro k c
          simp [onDisconnectedHandler, htm, hc]
      · intro h; exact absurd hc h
  · cases htm : s.targetManager with
    | none =>
      refine ⟨?_, ?_, ?_, ?_⟩
      · simp [onDisconnectedHandler, htm, hc]
      · intro tm htm2; simp at htm2
      · intro h; exact absurd h hc
      · intro _
        refine ⟨?_, ?_, ?_⟩ <;> simp [onDisconnectedHandler, htm, hc]
    | some tm0 =>
      refine ⟨?_, ?_, ?_, ?_⟩
      · simp [onDisconnectedHandler, htm, hc]
      · intro tm htm2
        constructor <;> simp [onDisconnectedHandler, htm, hc]
      · intro h; exact absurd h hc
      · intro _
        refine ⟨?_, ?_, ?_⟩ <;> simp [onDisconnectedHandler, htm, hc]

/-- Attacher state used by the witnesses: live connection `3`, live target
manager `5`, two subscriptions, current params `pW`. -/
def sW : AttacherState :=
  { attemptTimer := none, connection := some 3, connectionClosed := false
    targetManager := some ({ tmId := 5, disposed := false }), disposables := [1, 2]
    lastLaunchParams := some pW }

theorem c5_disconnect_handling_witness :
    (onDisconnectedHandler sW pW).1.targetManager = none ∧
    (onDisconnectedHandler sW pW).2 = [Ev.tmDisposed, Ev.targetListChanged] ∧
    (onDisconnectedHandler sW pW).1.attemptTimer = some ⟨pW, 1000, true, false⟩ := by
  have h2 := (c5_disconnect_handling sW pW).2.1 ⟨5, false⟩ (by decide)
  have h3 := (c5_disconnect_handling sW pW).2.2.1 ⟨by decide, by decide⟩
  refine ⟨h2.1, ?_, h3.1⟩
  rw [h2.2]
  simp [sW, pW]

/-- C6: on a target-removed notification, target-list-changed is fired first;
exactly when the remaining target list is empty and the removed target was
attachable, the handler additionally fires terminated
`{killed: true, code: 0}` — after the target-list-changed event and exactly
once. -/
theorem c6_target_removed (remaining : List Target) (removed : Target) :
    (onTargetRemovedHandler remaining removed).head? = some Ev.targetListChanged ∧
    ((remaining = [] ∧ removed.canAttach = true) →
        onTargetRemovedHandler remaining removed =
          [Ev.targetListChanged, Ev.terminated true 0]) ∧
    (¬(remaining = [] ∧ removed.canAttach = true) →
        onTargetRemovedHandler remaining removed = [Ev.targetListChanged]) ∧
    ((Ev.terminated true 0 ∈ onTargetRemovedHandler remaining removed) ↔
        (remaining = [] ∧ removed.canAttach = true)) := by
  have hlen : (remaining.length = 0 ∧ removed.canAttach = true) ↔
      (remaining = [] ∧ removed.canAttach = true) := by
    constructor
    · intro h; exact ⟨List.length_eq_zero.mp h.1, h.2⟩
    · intro h; exact ⟨by simp [h.1], h.2⟩
  by_cases h : remaining = [] ∧ removed.canAttach = true
  · refine ⟨?_, fun _ => ?_, fun hn => absurd h hn, ?_⟩
    · simp [onTargetRemovedHandler]
    · simp [onTargetRemovedHandler, hlen.mpr h, h.1, h.2]
    · simp [onTargetRemovedHandler, hlen.mpr h, h.1, h.2]
  · refine ⟨?_, fun hy => absurd hy h, fun _ => ?_, ?_⟩
    · simp [onTargetRemovedHandler]
    · have : ¬(remaining.length = 0 ∧ removed.canAttach = true) := fun hx => h (hlen.mp hx)
      simp only [onTargetRemovedHandler, if_neg this]
    · have hno : ¬(remaining.length = 0 ∧ removed.canAttach = true) := fun hx => h (hlen.mp hx)
      simp only [onTargetRemovedHandler, if_neg hno]
      constructor
      · intro hmem
        simp at hmem
      · intro hx
        exact absurd hx h

/-- Removed target used by the witnesses. -/
def tRemoved : Target := { targetId := 9, canAttach := true }

theorem c6_target_removed_witness :
    onTargetRemovedHandler [] tRemoved = [Ev.targetListChanged, Ev.terminated true 0] :=
  (c6_target_removed [] tRemoved).2.1 ⟨rfl, by decide⟩

/-- C7: the main-target wait races the matching-target appearance against the
configured timeout.  If the match appears first the attempt returns no
error; if the timeout elapses first (the match appears no earlier, or
never) the attempt returns the formatted message — which contains the
filter value (`urlFilter || url`) and the timeout in milliseconds — and the
connection is not closed by the attempt (its closed flag is unchanged and
it stays installed). -/
theorem c7_main_target_race (s : AttacherState) (conn : Conn) (p : AttachParams)
    (tm : TargetManagerS) :
    (∀ t, t < p.timeout →
        (attachAfterAcquire s conn p (connectEnv (some tm) (some t))).error = none) ∧
    (∀ ap, (ap = none ∨ ∃ t, ap = some t ∧ ¬t < p.timeout) →
        (attachAfterAcquire s conn p (connectEnv (some tm) ap)).error =
          some (noMatchingTargetMsg p) ∧
        (attachAfterAcquire s conn p (connectEnv (some tm) ap)).state.connectionClosed =
          s.connectionClosed ∧
        (attachAfterAcquire s conn p (connectEnv (some tm) ap)).state.connection = some conn) ∧
    (∃ x y, noMatchingTargetMsg p = x ++ filterValue p ++ y) ∧
    (∃ u, noMatchingTargetMsg p = u ++ toString p.timeout ++ "ms") := by
  refine ⟨?_, ?_, ?_, ?_⟩
  · intro t ht
    simp [attachAfterAcquire, connectEnv, raceMainTarget, ht]
  · intro ap hap
    rcases hap with h | ⟨t, ht, hlt⟩
    · subst h
      refine ⟨?_, ?_, ?_⟩ <;> simp [attachAfterAcquire, connectEnv, raceMainTarget]
    · subst ht
      refine ⟨?_, ?_, ?_⟩ <;> simp [attachAfterAcquire, connectEnv, raceMainTarget, hlt]
  · refine ⟨"Can't find a valid target that matches ",
      " within " ++ toString p.timeout ++ "ms", ?_⟩
    simp [noMatchingTargetMsg, String.append_assoc]
  · exact ⟨"Can't find a valid target that matches " ++ filterValue p ++ " within ", rfl⟩

theorem c7_main_target_race_witness :
    (attachAfterAcquire sW 3 pW (connectEnv (some ⟨5, false⟩) (some 2000))).error = none ∧
    (attachAfterAcquire sW 3 pW (connectEnv (some ⟨5, false⟩) none)).error =
      some (noMatchingTargetMsg pW) ∧
    (attachAfterAcquire sW 3 pW (connectEnv (some ⟨5, false⟩) none)).state.connection = some 3 := by
  have h1 := (c7_main_target_race sW 3 pW ⟨5, false⟩).1 2000 (by decide)
  have h2 := (c7_main_target_race sW 3 pW ⟨5, false⟩).2.1 none (Or.inl rfl)
  exact ⟨h1, h2.1, h2.2.2⟩

/-- C8: `terminate` clears the current `AttachParams` and closes the connection
when one is present; it is idempotent on the attacher state; and
`disconnect` is an exact alias for `terminate`. -/
theorem c8_terminate_idempotent (s : AttacherState) :
    (terminate s).lastLaunchParams = none ∧
    (s.connection.isSome = true → (terminate s).connectionClosed = true) ∧
    terminate (terminate s) = terminate s ∧
    (∀ u, disconnect u = terminate u) := by
  refine ⟨rfl, ?_, ?_, fun u => rfl⟩
  · intro h
    simp [terminate, h]
  · cases s with
    | mk t1 c1 b1 m1 d1 l1 =>
      simp [terminate, Bool.or_assoc]

theorem c8_terminate_idempotent_witness :
    (terminate sW).lastLaunchParams = none ∧ (terminate sW).connectionClosed = true :=
  ⟨(c8_terminate_idempotent sW).1, (c8_terminate_idempotent sW).2.1 (by decide)⟩

/-- C9: `dispose` empties the subscription list, cancels the pending retry
timer so that its firing performs no further attach attempt, and disposes
the current target manager; it is idempotent on the attacher state, and
after it no live timer or subscription remains. -/
theorem c9_dispose_safe (s : AttacherState) :
    (dispose s).disposables = [] ∧
    fireRetryTimer (dispose s) = none ∧
    (∀ tm, s.targetManager = some tm →
        (dispose s).targetManager = some ({ tm with disposed := true })) ∧
    dispose (dispose s) = dispose s := by
    refine ⟨rfl, ?_, ?_, ?_⟩
    · cases ht : s.attemptTimer with
      | none => simp [dispose, fireRetryTimer, ht]
      | some t => simp [dispose, fireRetryTimer, ht]
    · intro tm htm
      simp [dispose, htm]
    · cases ht : s.attemptTimer with
      | none =>
        cases htm : s.targetManager with
        | none => simp [dispose, ht, htm]
        | some tm => simp [dispose, ht, htm]
      | some t =>
        cases htm : s.targetManager with
        | none => simp [dispose, ht, htm]
        | some tm => simp [dispose, ht, htm]

theorem c9_dispose_safe_witness :
    (dispose sW).targetManager = some ⟨5, true⟩ ∧
    fireRetryTimer (dispose sW) = none ∧
    (dispose sW).disposables = [] := by
  have h := (c9_dispose_safe sW).2.2.1 ⟨5, false⟩ (by decide)
  exact ⟨by simpa using h, (c9_dispose_safe sW).2.1, (c9_dispose_safe sW).1⟩

/-- C10: when the connection is acquired but `BrowserTargetManager.connect`
resolves to `undefined`, `_attemptToAttach` returns no error — so `launch`
wraps it as `{blockSessionTermination: true}` — even though no target
manager is installed, no target-list forwarding is wired, and the
main-target race (with its timeout) never runs. -/
theorem c10_tm_connect_undefined (s : AttacherState) (conn : Conn) (p : AttachParams)
    (ap : Option Nat) :
    (attachAfterAcquire s conn p (connectEnv none ap)).error = none ∧
    (attachAfterAcquire s conn p (connectEnv none ap)).state.targetManager = none ∧
    (attachAfterAcquire s conn p (connectEnv none ap)).forwardingWired = false ∧
    (attachAfterAcquire s conn p (connectEnv none ap)).raceRan = false ∧
    launchResultOfError (attachAfterAcquire s conn p (connectEnv none ap)).error =
      { error := none, blockSessionTermination := some true } := by
  refine ⟨rfl, rfl, rfl, rfl, rfl⟩

/-- Program counter of one `_attemptToAttach` task, keyed by the `refId` of its
captured `AttachParams`, at the suspension points of the source:
`loopHead` — about to evaluate `while (this._lastLaunchParams === params)`;
`attempting` — `await launcher.attach` in flight; `delaying` — inside
`await delay(1000)`; `installed c` — the attach resolved and
`this._connection = connection` executed with connection `c`; `failedExit`
— the loop guard failed and the error string was returned. -/
inductive PC where
  | idle
  | loopHead
  | attempting
  | delaying
  | installed (c : Conn)
  | failedExit
deriving DecidableEq, Repr

/-- Shared state of the attacher visible to the interleaved tasks:
`lastParams` is `this._lastLaunchParams` (by `refId`), `activeConn` is
`this._connection` tagged with the `refId` of the params under which it was
obtained, `pc` the program counter of each task. -/
structure GState where
  lastParams : Option Nat
  activeConn : Option (Nat × Conn)
  pc : Nat → PC

/-- Point update of a task's program counter. -/
def pcUpdate (f : Nat → PC) (k : Nat) (v : PC) : Nat → PC :=
  fun n => if n = k then v else f n

theorem pcUpdate_ne (f : Nat → PC) (p A : Nat) (v : PC) (h : ¬(A = p)) :
    pcUpdate f p v A = f A := by
  simp [pcUpdate, h]

theorem pcUpdate_eq (f : Nat → PC) (p : Nat) (v : PC) :
    pcUpdate f p v p = v := by
  simp [pcUpdate]

/-- One cooperative scheduling step: `launchStart p` — `launch` records the
params `p` (source line 56) and its attach attempt reaches the loop head;
`checkHead p` — task `p` evaluates the `while` guard (source line 144);
`attemptFail p` — task `p`'s in-flight `launcher.attach` rejects with the
token unsignaled, so it enters `delay(1000)`; `attemptSucceed p c` — task
`p`'s in-flight `launcher.attach` resolves with `c`, which is returned and
installed by `this._connection = connection` (source line 79);
`delayDone p` — the 1000 ms delay elapses and task `p` returns to the loop
head. -/
inductive Step where
  | launchStart (p : Nat)
  | checkHead (p : Nat)
  | attemptFail (p : Nat)
  | attemptSucceed (p : Nat) (c : Conn)
  | delayDone (p : Nat)
deriving DecidableEq, Repr

/-- The transition function of the interleaving model; a step whose task is not
at the required suspension point is a no-op. -/
def stepFn (s : GState) (st : Step) : GState :=
  match st with
  | .launchStart p => { s with lastParams := some p, pc := pcUpdate s.pc p PC.loopHead }
  | .checkHead p =>
    if s.pc p = PC.loopHead then
      if s.lastParams = some p then { s with pc := pcUpdate s.pc p PC.attempting }
      else { s with pc := pcUpdate s.pc p PC.failedExit }
    else s
  | .attemptFail p =>
    if s.pc p = PC.attempting then { s with pc := pcUpdate s.pc p PC.delaying } else s
  | .attemptSucceed p c =>
    if s.pc p = PC.attempting then
      { s with pc := pcUpdate s.pc p (PC.installed c), activeConn := some (p, c) }
    else s
  | .delayDone p =>
    if s.pc p = PC.delaying then { s with pc := pcUpdate s.pc p PC.loopHead } else s

/-- Run a list of scheduling steps. -/
def runSteps (s : GState) : List Step → GState
  | [] => s
  | st :: tr => runSteps (stepFn s st) tr

/-- The attacher before any launch. -/
def g0 : GState := { lastParams := none, activeConn := none, pc := fun _ => PC.idle }

/-- The interleaving that breaks the claim: launch with params `1`, its task
passes the loop-head check and suspends in `launcher.attach`; launch with
params `2` supersedes params `1`; then task `1`'s attach resolves. -/
def cexTrace : List Step :=
  [Step.launchStart 1, Step.checkHead 1, Step.launchStart 2, Step.attemptSucceed 1 10]

/-- C1 (counterexample): with AttachParams `A = 1` and `B = 2`, after
`launchStart 1, checkHead 1, launchStart 2` the current params reference
has changed from `1` to `2` while task `1`'s acquire loop has not completed
(it is suspended inside `launcher.attach`); yet when that attempt then
resolves, connection `10` — obtained under the superseded params `1` —
becomes the attacher's active connection.  The loop guard of
`acquireConnectionForBrowser` is only evaluated at the head of each
iteration, and `_attemptToAttach` installs the returned connection without
re-checking `this._lastLaunchParams`, so supersession during an in-flight
attempt does not prevent the stale install. -/
theorem c1_supersession_cex :
    (runSteps g0 [Step.launchStart 1, Step.checkHead 1, Step.launchStart 2]).lastParams
        = some 2 ∧
    (runSteps g0 [Step.launchStart 1, Step.checkHead 1, Step.launchStart 2]).pc 1
        = PC.attempting ∧
    (runSteps g0 cexTrace).activeConn = some (1, 10) ∧
    (runSteps g0 cexTrace).lastParams = some 2 := by
  refine ⟨rfl, by decide, rfl, rfl⟩

/-- Preservation of the staleness invariant: if task `A` is not mid-attempt
and not installed, params `A` are not current, no `A`-owned connection is
active, and the step is not a fresh `launch` of `A`, then all four facts
still hold after the step. -/
theorem stepFn_preserves (A : Nat) (s : GState) (st : Step)
    (h1 : s.pc A ≠ PC.attempting)
    (h2 : ∀ c, s.pc A ≠ PC.installed c)
    (h3 : s.lastParams ≠ some A)
    (h4 : ∀ c, s.activeConn ≠ some (A, c))
    (h5 : st ≠ Step.launchStart A) :
    (stepFn s st).pc A ≠ PC.attempting ∧
    (∀ c, (stepFn s st).pc A ≠ PC.installed c) ∧
    (stepFn s st).lastParams ≠ some A ∧
    (∀ c, (stepFn s st).activeConn ≠ some (A, c)) := by
  cases st with
  | launchStart p =>
    have hpA : ¬(p = A) := fun hh => h5 (by rw [hh])
    have hAp : ¬(A = p) := fun hh => hpA hh.symm
    refine ⟨?_, fun c => ?_, ?_, fun c => ?_⟩
    · simpa [stepFn, pcUpdate, hAp] using h1
    · simpa [stepFn, pcUpdate, hAp] using h2 c
    · simp [stepFn, hpA]
    · simpa [stepFn] using h4 c
  | checkHead p =>
    by_cases hA : p = A
    · subst hA
      by_cases hpc : s.pc p = PC.loopHead
      · have hlp : ¬(s.lastParams = some p) := h3
        refine ⟨?_, fun c => ?_, ?_, fun c => ?_⟩
        · simp [stepFn, hpc, hlp, pcUpdate]
        · simp [stepFn, hpc, hlp, pcUpdate]
        · simp [stepFn, hpc, hlp]
        · simpa [stepFn, hpc, hlp] using h4 c
      · refine ⟨?_, fun c => ?_, ?_, fun c => ?_⟩
        · simpa [stepFn, hpc] using h1
        · simpa [stepFn, hpc] using h2 c
        · simpa [stepFn, hpc] using h3
        · simpa [stepFn, hpc] using h4 c
    · have hAp : ¬(A = p) := fun hh => hA hh.symm
      by_cases hpc : s.pc p = PC.loopHead
      · by_cases hlp : s.lastParams = some p
        · refine ⟨?_, fun c => ?_, ?_, fun c => ?_⟩
          · simpa [stepFn, hpc, hlp, pcUpdate, hAp] using h1
          · simpa [stepFn, hpc, hlp, pcUpdate, hAp] using h2 c
          · simpa [stepFn, hpc, hlp] using h3
          · simpa [stepFn, hpc, hlp] using h4 c
        · refine ⟨?_, fun c => ?_, ?_, fun c => ?_⟩
          · simpa [stepFn, hpc, hlp, pcUpdate, hAp] using h1
          · simpa [stepFn, hpc, hlp, pcUpdate, hAp] using h2 c
          · simpa [stepFn, hpc, hlp] using h3
          · simpa [stepFn, hpc, hlp] using h4 c
      · refine ⟨?_, fun c => ?_, ?_, fun c => ?_⟩
        · simpa [stepFn, hpc] using h1
        · simpa [stepFn, hpc] using h2 c
        · simpa [stepFn, hpc] using h3
        · simpa [stepFn, hpc] using h4 c
  | attemptFail p =>
    by_cases hpc : s.pc p = PC.attempting
    · have hAp : ¬(A = p) := fun hh => h1 (hh ▸ hpc)
      refine ⟨?_, fun c => ?_, ?_, fun c => ?_⟩
      · simpa [stepFn, hpc, pcUpdate, hAp] using h1
      · simpa [stepFn, hpc, pcUpdate, hAp] using h2 c
      · simpa [stepFn, hpc] using h3
      · simpa [stepFn, hpc] using h4 c
    · refine ⟨?_, fun c => ?_, ?_, fun c => ?_⟩
      · simpa [stepFn, hpc] using h1
      · simpa [stepFn, hpc] using h2 c
      · simpa [stepFn, hpc] using h3
      · simpa [stepFn, hpc] using h4 c
  | attemptSucceed p c0 =>
    by_cases hpc : s.pc p = PC.attempting
    · have hAp : ¬(A = p) := fun hh => h1 (hh ▸ hpc)
      have hpA : ¬(p = A) := fun hh => hAp hh.symm
      refine ⟨?_, fun c => ?_, ?_, fun c => ?_⟩
      · simpa [stepFn, hpc, pcUpdate, hAp] using h1
      · simpa [stepFn, hpc, pcUpdate, hAp] using h2 c
      · simpa [stepFn, hpc] using h3
      · simp [stepFn, hpc, hpA]
    · refine ⟨?_, fun c => ?_, ?_, fun c => ?_⟩
      · simpa [stepFn, hpc] using h1
      · simpa [stepFn, hpc] using h2 c
      · simpa [stepFn, hpc] using h3
      · simpa [stepFn, hpc] using h4 c
  | delayDone p =>
    by_cases hpc : s.pc p = PC.delaying
    · by_cases hA : p = A
      · subst hA
        refine ⟨?_, fun c => ?_, ?_, fun c => ?_⟩
        · simp [stepFn, hpc, pcUpdate]
        · simp [stepFn, hpc, pcUpdate]
        · simpa [stepFn, hpc] using h3
        · simpa [stepFn, hpc] using h4 c
      · have hAp : ¬(A = p) := fun hh => hA hh.symm
        refine ⟨?_, fun c => ?_, ?_, fun c => ?_⟩
        · simpa [stepFn, hpc, pcUpdate, hAp] using h1
        · simpa [stepFn, hpc, pcUpdate, hAp] using h2 c
        · simpa [stepFn, hpc] using h3
        · simpa [stepFn, hpc] using h4 c
    · refine ⟨?_, fun c => ?_, ?_, fun c => ?_⟩
      · simpa [stepFn, hpc] using h1
      · simpa [stepFn, hpc] using h2 c
      · simpa [stepFn, hpc] using h3
      · simpa [stepFn, hpc] using h4 c

/-- C1 (amended): supersession is detected only at the acquire loop's head.
If AttachParams `A` are superseded at a point where `A`'s task is not
mid-attempt (it is at the loop head, delaying between retries, exited, or
was never started) and no connection obtained under `A` is active, then —
as long as `A` is never re-launched — no connection obtained under `A`
ever becomes the attacher's active connection: any later loop-head check
of task `A` exits the loop, and no `A`-attempt can resolve.  (If `A` is
superseded while an open attempt is already in flight, that attempt's
connection is installed despite the supersession — see the
counterexample.) -/
theorem c1_supersession_amended (A : Nat) (tr : List Step) :
    ∀ s : GState,
      s.pc A ≠ PC.attempting →
      (∀ c, s.pc A ≠ PC.installed c) →
      s.lastParams ≠ some A →
      (∀ c, s.activeConn ≠ some (A, c)) →
      (∀ st, st ∈ tr → st ≠ Step.launchStart A) →
      ∀ c, (runSteps s tr).activeConn ≠ some (A, c) := by
  induction tr with
  | nil =>
    intro s _ _ _ h4 _ c
    exact h4 c
  | cons st rest ih =>
    intro s h1 h2 h3 h4 h5
    have hst : st ≠ Step.launchStart A := h5 st (List.mem_cons_self st rest)
    have hrest : ∀ x, x ∈ rest → x ≠ Step.launchStart A :=
      fun x hx => h5 x (List.mem_cons_of_mem st hx)
    have hp := stepFn_preserves A s st h1 h2 h3 h4 hst
    exact ih (stepFn s st) hp.1 hp.2.1 hp.2.2.1 hp.2.2.2 hrest

/-- State at which params `1` have just been superseded by params `2` with
task `1` waiting at its loop head. -/
def gSup : GState :=
  { lastParams := some 2, activeConn := none
    pc := fun n => if n = 1 then PC.loopHead else PC.idle }

theorem c1_supersession_amended_witness :
    (runSteps gSup [Step.checkHead 1, Step.attemptSucceed 1 10]).activeConn ≠ some (1, 10) :=
  c1_supersession_amended 1 [Step.checkHead 1, Step.attemptSucceed 1 10] gSup
    (by decide) (fun c => by simp [gSup]) (by decide) (fun c => by simp [gSup])
    (by decide) 10
